import Mathlib

/-!
Shallow embedding of the Railway autoscaler (src/main.go) and proofs of the
specified properties of its core control loop.

Modelling conventions:
* Go `float64` CPU percentages are modelled as `ℚ` (the claims are about the
  ordering and branching logic, not about rounding of binary floats).
* Go `int` replica counts are modelled as `ℤ`; every arithmetic step performed
  by the code (`replicas + 1` under `replicas < Max`, `replicas - 1` under
  `replicas > Min`) stays within the `int` range whenever its guard holds, so
  `ℤ` is a faithful model of the branches the code can take.
* Go `time.Time` / `time.Duration` are modelled as `ℤ` nanoseconds, matching
  `time.Duration`'s representation; `time.Since(t)` at instant `now` is
  `now - t`.
* The outcome of a `doGraphQL` call is an explicit inductive: either a
  transport/decode error (`http.DefaultClient.Do` failed or the body did not
  decode), or a decoded response body.  `doGraphQL` itself never inspects the
  GraphQL `errors` array, so a decoded body with a non-empty `errors` array is
  still a nil-error return.
-/

namespace Autoscaler

/-- Go `time.Second` in nanoseconds (`time.Duration` is an int64 nanosecond
count). -/
def second : ℤ := 1000000000

/-- Go `time.Minute` in nanoseconds. -/
def minute : ℤ := 60 * second

/-- `metricPoint` from src/main.go: one CPU sample (`cpuPercent`). -/
structure metricPoint where
  cpu : ℚ
  deriving DecidableEq

/-- `instanceMetrics` from src/main.go: the samples of one instance. -/
structure instanceMetrics where
  metrics : List metricPoint
  deriving DecidableEq

/-- `serviceData` from src/main.go: per-instance samples plus the currently
reported replica count. -/
structure serviceData where
  instances : List instanceMetrics
  replicas : ℤ
  deriving DecidableEq

/-- One entry of the GraphQL `errors` array. -/
structure gqlError where
  message : String
  deriving DecidableEq

/-- `gqlResponse` from src/main.go: decoded response body, `data` plus the
`errors` array. -/
structure gqlResponse where
  data : serviceData
  errors : List gqlError
  deriving DecidableEq

/-- Outcome of `doGraphQL` as the code observes it: `err m` models a non-nil
returned error (network failure from `http.DefaultClient.Do`, or a JSON decode
failure), `ok resp` models a nil error with `resp` the decoded body.
`doGraphQL` never looks at the `errors` array itself. -/
inductive GqlOutcome where
  | err (msg : String)
  | ok (resp : gqlResponse)
  deriving DecidableEq

/-- `snapshot` from src/main.go. -/
structure snapshot where
  avgCPU : ℚ
  replicas : ℤ
  deriving DecidableEq

/-- `config` from src/main.go. -/
structure Config where
  token : String
  serviceID : String
  high : ℚ
  low : ℚ
  min : ℤ
  max : ℤ
  cooldown : ℤ
  interval : ℤ
  deriving DecidableEq

/-- `decide` from src/main.go, the scaling decision function:
a `switch` whose first matching case wins. -/
def decide (cpu : ℚ) (replicas : ℤ) (cfg : Config) : ℤ :=
  if cpu > cfg.high ∧ replicas < cfg.max then replicas + 1
  else if cpu < cfg.low ∧ replicas > cfg.min then replicas - 1
  else replicas

/-- `fetch` from src/main.go, as a function of the `doGraphQL` outcome:
on a returned error or a non-empty `errors` array it returns the zero-value
snapshot; otherwise it averages every sample across every instance (guarding
the division by `count > 0`) and pairs the average with the reported replica
count. -/
def fetch (o : GqlOutcome) : snapshot :=
  match o with
  | GqlOutcome.err _ => { avgCPU := 0, replicas := 0 }
  | GqlOutcome.ok resp =>
    if 0 < resp.errors.length then { avgCPU := 0, replicas := 0 }
    else
      let pts := (resp.data.instances.map instanceMetrics.metrics).flatten
      let sum := (pts.map metricPoint.cpu).sum
      let count := pts.length
      let avg := if 0 < count then sum / (count : ℚ) else 0
      { avgCPU := avg, replicas := resp.data.replicas }

/-- The error value `scale` from src/main.go reports to `main`: it returns
`doGraphQL`'s error unchanged and never inspects the decoded body, so the call
succeeds exactly when the HTTP request completed and the body decoded. -/
inductive ScaleOutcome where
  | success
  | failure (msg : String)
  deriving DecidableEq

/-- `scale` from src/main.go, as a function of the `doGraphQL` outcome of the
mutation call: it returns that outcome's error and ignores the decoded body
(including any GraphQL `errors` array in it). -/
def scale (o : GqlOutcome) : ScaleOutcome :=
  match o with
  | GqlOutcome.err m => ScaleOutcome.failure m
  | GqlOutcome.ok _ => ScaleOutcome.success

/-- The actuation step of one iteration of `main`'s loop (src/main.go lines
129-136): with `snap` the fetched snapshot, `lastScale` the retained
timestamp, `now` the instant `time.Since(lastScale)` is evaluated, `nowAfter`
the instant `time.Now()` is evaluated after a successful `scale` call, and
`callResult` the outcome the `scale` call would report, it returns
`(invoked, applied, newLastScale)`: whether the remote mutation was invoked,
whether it succeeded, and the retained timestamp after the iteration. -/
def mainStep (cfg : Config) (lastScale : ℤ) (snap : snapshot)
    (now nowAfter : ℤ) (callResult : ScaleOutcome) : Bool × Bool × ℤ :=
  let desired := decide snap.avgCPU snap.replicas cfg
  if desired ≠ snap.replicas ∧ now - lastScale > cfg.cooldown then
    match callResult with
    | ScaleOutcome.success => (true, true, nowAfter)
    | ScaleOutcome.failure _ => (true, false, lastScale)
  else (false, false, lastScale)

/-- The initial value of `lastScale` in `main` (src/main.go line 123):
`time.Now().Add(-cfg.Cooldown)` at startup instant `tStart`. -/
def initialLastScale (cfg : Config) (tStart : ℤ) : ℤ :=
  tStart - cfg.cooldown

/-- An optional environment value as `loadConfig`'s helpers see it:
`absent` models an unset or empty variable, `parsed x` a value that parses to
`x`, `malformed` a non-empty value the parser rejects (in which case Go's
`strconv.ParseFloat` / `strconv.Atoi` / `time.ParseDuration` return the zero
value alongside the discarded error). -/
inductive EnvVal (α : Type) where
  | absent
  | parsed (x : α)
  | malformed

/-- `parseF` from src/main.go: default when unset, the parsed value when it
parses, and the float zero value when the parse fails (the error is
discarded by `f, _ := strconv.ParseFloat(v, 64)`). -/
def parseF (v : EnvVal ℚ) (d : ℚ) : ℚ :=
  match v with
  | EnvVal.absent => d
  | EnvVal.parsed x => x
  | EnvVal.malformed => 0

/-- `parseI` from src/main.go: same shape as `parseF` over `int`. -/
def parseI (v : EnvVal ℤ) (d : ℤ) : ℤ :=
  match v with
  | EnvVal.absent => d
  | EnvVal.parsed x => x
  | EnvVal.malformed => 0

/-- `parseDur` from src/main.go: same shape over `time.Duration`
(nanoseconds). -/
def parseDur (v : EnvVal ℤ) (d : ℤ) : ℤ :=
  match v with
  | EnvVal.absent => d
  | EnvVal.parsed x => x
  | EnvVal.malformed => 0

/-- The environment as `loadConfig` reads it: `os.Getenv` returns the empty
string for an unset variable, so the two required variables are plain strings
with `""` meaning missing, and the optional ones are `EnvVal`s. -/
structure Env where
  railwayToken : String
  serviceId : String
  cpuHigh : EnvVal ℚ
  cpuLow : EnvVal ℚ
  minReplicas : EnvVal ℤ
  maxReplicas : EnvVal ℤ
  cooldownEnv : EnvVal ℤ
  pollInterval : EnvVal ℤ

/-- `loadConfig` from src/main.go: `none` models `log.Fatalf` (process exit
before the loop starts), reached exactly when a required variable is empty;
every optional variable goes through its parse helper. -/
def loadConfig (e : Env) : Option Config :=
  if e.railwayToken = "" then none
  else if e.serviceId = "" then none
  else some
    { token := e.railwayToken
      serviceID := e.serviceId
      high := parseF e.cpuHigh 75
      low := parseF e.cpuLow 30
      min := parseI e.minReplicas 1
      max := parseI e.maxReplicas 5
      cooldown := parseDur e.cooldownEnv (2 * minute)
      interval := parseDur e.pollInterval (30 * second) }

/-- The default policy of src/main.go (high=75, low=30, min=1, max=5,
cooldown=2m, interval=30s), used as a concrete input by the witness
theorems. -/
def cfg0 : Config :=
  { token := "tok", serviceID := "svc", high := 75, low := 30,
    min := 1, max := 5, cooldown := 2 * minute, interval := 30 * second }

/-- C1: for every utilization, replica count and policy, `decide` returns
`replicas + 1` when `cpu > high ∧ replicas < max`; otherwise `replicas - 1`
when `cpu < low ∧ replicas > min`; otherwise `replicas` unchanged, the
branches tried in exactly that priority order. -/
theorem decide_priority (cpu : ℚ) (r : ℤ) (cfg : Config) :
    (cpu > cfg.high ∧ r < cfg.max → decide cpu r cfg = r + 1)
    ∧ (¬(cpu > cfg.high ∧ r < cfg.max) → cpu < cfg.low ∧ r > cfg.min →
        decide cpu r cfg = r - 1)
    ∧ (¬(cpu > cfg.high ∧ r < cfg.max) → ¬(cpu < cfg.low ∧ r > cfg.min) →
        decide cpu r cfg = r) := by
  refine ⟨fun h₁ => ?_, fun h₁ h₂ => ?_, fun h₁ h₂ => ?_⟩
  · simp [decide, h₁]
  · simp [decide, h₁, h₂]
  · simp [decide, h₁, h₂]

/-- Witness for C1 at the spec's own scenarios: (80, 2) scales up to 3,
(20, 2) scales down to 1, (50, 2) is unchanged, under the default policy. -/
theorem decide_priority_witness :
    decide 80 2 cfg0 = 3 ∧ decide 20 2 cfg0 = 1 ∧ decide 50 2 cfg0 = 2 := by
  refine ⟨(decide_priority 80 2 cfg0).1 ?_,
    (decide_priority 20 2 cfg0).2.1 ?_ ?_,
    (decide_priority 50 2 cfg0).2.2 ?_ ?_⟩ <;>
    norm_num [cfg0]

/-- C4: for every utilization and every `replicas ∈ [min, max]`, the output
of `decide` stays within `[min, max]`. -/
theorem decide_bounded (cpu : ℚ) (r : ℤ) (cfg : Config)
    (hlo : cfg.min ≤ r) (hhi : r ≤ cfg.max) :
    cfg.min ≤ decide cpu r cfg ∧ decide cpu r cfg ≤ cfg.max := by
  unfold decide
  split
  case isTrue h => obtain ⟨-, h⟩ := h; omega
  case isFalse =>
    split
    case isTrue h => obtain ⟨-, h⟩ := h; omega
    case isFalse => omega

/-- Witness for C4 at utilization 80, 2 replicas, default policy. -/
theorem decide_bounded_witness :
    cfg0.min ≤ decide 80 2 cfg0 ∧ decide 80 2 cfg0 ≤ cfg0.max :=
  decide_bounded 80 2 cfg0 (by norm_num [cfg0]) (by norm_num [cfg0])

/-- C8: whenever `low ≤ utilization ≤ high`, `decide` returns the current
replica count unchanged, for every policy (deadband idempotence). -/
theorem decide_deadband (cpu : ℚ) (r : ℤ) (cfg : Config)
    (h₁ : cfg.low ≤ cpu) (h₂ : cpu ≤ cfg.high) :
    decide cpu r cfg = r := by
  have hA : ¬(cpu > cfg.high ∧ r < cfg.max) := fun h => absurd h.1 (not_lt.mpr h₂)
  have hB : ¬(cpu < cfg.low ∧ r > cfg.min) := fun h => absurd h.1 (not_lt.mpr h₁)
  simp [decide, hA, hB]

/-- Witness for C8 at utilization 50 inside the default deadband [30, 75]. -/
theorem decide_deadband_witness : decide 50 2 cfg0 = 2 :=
  decide_deadband 50 2 cfg0 (by norm_num [cfg0]) (by norm_num [cfg0])

/-- C2: with `lastScale = t0` and a genuine desired change, the actuation
step at `t0 + cooldown - 1s` does not invoke the remote mutation and keeps
the timestamp at `t0`, while at `t0 + cooldown + 1s` it does invoke it
(whatever the call would return). -/
theorem cooldown_gate (cfg : Config) (t0 nowAfter : ℤ) (snap : snapshot)
    (r : ScaleOutcome)
    (hch : decide snap.avgCPU snap.replicas cfg ≠ snap.replicas) :
    (mainStep cfg t0 snap (t0 + cfg.cooldown - second) nowAfter r).1 = false
    ∧ (mainStep cfg t0 snap (t0 + cfg.cooldown - second) nowAfter r).2.2 = t0
    ∧ (mainStep cfg t0 snap (t0 + cfg.cooldown + second) nowAfter r).1 = true := by
  have hsec : (0:ℤ) < second := by norm_num [second]
  have hgate1 : ¬(decide snap.avgCPU snap.replicas cfg ≠ snap.replicas ∧
      t0 + cfg.cooldown - second - t0 > cfg.cooldown) := by
    rintro ⟨-, hgt⟩; omega
  have hgate2 : t0 + cfg.cooldown + second - t0 > cfg.cooldown := by omega
  refine ⟨?_, ?_, ?_⟩
  · simp [mainStep, hgate1]
  · simp [mainStep, hgate1]
  · cases r <;> simp [mainStep, hch, hgate2]

/-- Witness for C2 with the default policy, `t0 = 0` and snapshot (80, 2),
whose desired count 3 differs from the current 2. -/
theorem cooldown_gate_witness :
    (mainStep cfg0 0 ⟨80, 2⟩ (0 + cfg0.cooldown - second) 7
        ScaleOutcome.success).1 = false
    ∧ (mainStep cfg0 0 ⟨80, 2⟩ (0 + cfg0.cooldown - second) 7
        ScaleOutcome.success).2.2 = 0
    ∧ (mainStep cfg0 0 ⟨80, 2⟩ (0 + cfg0.cooldown + second) 7
        ScaleOutcome.success).1 = true :=
  cooldown_gate cfg0 0 7 ⟨80, 2⟩ ScaleOutcome.success (by norm_num [decide, cfg0])

/-- C3: in every cycle where the remote mutation is invoked and fails, the
retained timestamp is unchanged across the call — a failed attempt does not
consume or restart the cooldown. -/
theorem failed_scale_keeps_timestamp (cfg : Config) (t0 now nowAfter : ℤ)
    (snap : snapshot) (m : String)
    (hinv : (mainStep cfg t0 snap now nowAfter (ScaleOutcome.failure m)).1 = true) :
    (mainStep cfg t0 snap now nowAfter (ScaleOutcome.failure m)).2.2 = t0 := by
  simp only [mainStep]
  split <;> rfl

/-- Witness for C3: default policy, gate open (121s since `t0 = 0`), desired
change 2 → 3, failing call. -/
theorem failed_scale_keeps_timestamp_witness :
    (mainStep cfg0 0 ⟨80, 2⟩ (121 * second) 7 (ScaleOutcome.failure "boom")).2.2 = 0 :=
  failed_scale_keeps_timestamp cfg0 0 (121 * second) 7 ⟨80, 2⟩ "boom"
    (by norm_num [mainStep, decide, cfg0, second, minute])

/-- The failure condition of the fetch path: a returned transport/decode
error, or a decoded body whose `errors` array is non-empty. -/
def fetchFailed (o : GqlOutcome) : Bool :=
  match o with
  | GqlOutcome.err _ => true
  | GqlOutcome.ok resp => !resp.errors.isEmpty

/-- C5: on every communication failure, remote-reported error payload or
decode failure, `fetch` returns the zero-value snapshot (utilization 0,
replicas 0); it is a total function, so the loop continues. -/
theorem fetch_failure_neutral (o : GqlOutcome) (h : fetchFailed o = true) :
    fetch o = { avgCPU := 0, replicas := 0 } := by
  cases o with
  | err m => rfl
  | ok resp =>
    have hne : resp.errors ≠ [] := by
      simpa [fetchFailed, List.isEmpty_iff] using h
    simp [fetch, List.length_pos.mpr hne]

/-- Witness for C5 at a concrete transport error. -/
theorem fetch_failure_neutral_witness :
    fetch (GqlOutcome.err "connection refused") = { avgCPU := 0, replicas := 0 } :=
  fetch_failure_neutral (GqlOutcome.err "connection refused") rfl

/-- C7: a decodable response carrying a non-empty GraphQL `errors` array is a
success for `scale` (whose only failure modes are transport and decode
errors), and when the gate was open the actuation step then advances the
retained timestamp — while `fetch` treats the same payload as a failure and
returns the zero snapshot. -/
theorem scale_ignores_gql_errors (resp : gqlResponse) (cfg : Config)
    (t0 now nowAfter : ℤ) (snap : snapshot)
    (herr : resp.errors ≠ [])
    (hch : decide snap.avgCPU snap.replicas cfg ≠ snap.replicas)
    (hgate : now - t0 > cfg.cooldown) :
    scale (GqlOutcome.ok resp) = ScaleOutcome.success
    ∧ (mainStep cfg t0 snap now nowAfter (scale (GqlOutcome.ok resp))).2.2 = nowAfter
    ∧ fetch (GqlOutcome.ok resp) = { avgCPU := 0, replicas := 0 } := by
  refine ⟨rfl, ?_, ?_⟩
  · simp [mainStep, scale, hch, hgate]
  · simp [fetch, List.length_pos.mpr herr]

/-- Witness for C7: a rejected-mutation payload, default policy, open gate,
desired change 2 → 3. -/
theorem scale_ignores_gql_errors_witness :
    scale (GqlOutcome.ok ⟨⟨[], 2⟩, [⟨"not permitted"⟩]⟩) = ScaleOutcome.success
    ∧ (mainStep cfg0 0 ⟨80, 2⟩ (121 * second) 7
        (scale (GqlOutcome.ok ⟨⟨[], 2⟩, [⟨"not permitted"⟩]⟩))).2.2 = 7
    ∧ fetch (GqlOutcome.ok ⟨⟨[], 2⟩, [⟨"not permitted"⟩]⟩)
        = { avgCPU := 0, replicas := 0 } :=
  scale_ignores_gql_errors ⟨⟨[], 2⟩, [⟨"not permitted"⟩]⟩ cfg0 0 (121 * second) 7
    ⟨80, 2⟩ (by simp) (by norm_num [decide, cfg0])
    (by norm_num [cfg0, second, minute])

/-- A concrete environment: both required variables present, `CPU_HIGH` set
to a non-empty string that does not parse as a float. -/
def envHighMalformed : Env :=
  { railwayToken := "tok", serviceId := "svc",
    cpuHigh := EnvVal.malformed, cpuLow := EnvVal.absent,
    minReplicas := EnvVal.absent, maxReplicas := EnvVal.absent,
    cooldownEnv := EnvVal.absent, pollInterval := EnvVal.absent }

/-- C6 counterexample: an unparseable `CPU_HIGH` is not fatal — `loadConfig`
returns a configuration, and the discarded parse error leaves the threshold
at the float zero value 0 rather than the default 75, so the loop runs with
it. -/
theorem loadConfig_malformed_not_fatal :
    (loadConfig envHighMalformed).isSome = true
    ∧ Option.map Config.high (loadConfig envHighMalformed) = some 0 := by
  constructor <;> rfl

/-- C6 amended: startup is fatal exactly when a required variable
(`RAILWAY_TOKEN` or `SERVICE_ID`) is missing; an unparseable optional value
is silently replaced by the parser's zero value and is not fatal. The check
happens in `loadConfig`, before the loop begins. -/
theorem loadConfig_fatal_iff_missing_required (e : Env) :
    loadConfig e = none ↔ (e.railwayToken = "" ∨ e.serviceId = "") := by
  constructor
  · intro h
    by_contra hc
    push_neg at hc
    simp [loadConfig, hc.1, hc.2] at h
  · rintro (h | h) <;> simp [loadConfig, h]

/-- A successful response carrying zero metric samples but a non-zero
reported replica count. -/
def respZeroSamples : gqlResponse :=
  { data := { instances := [], replicas := 3 }, errors := [] }

/-- C9 counterexample: a successful fetch with zero metric samples does not
in general produce the snapshot (0, 0) — the replica count is whatever the
remote reports, here 3. -/
theorem fetch_zero_samples_counterexample :
    fetch (GqlOutcome.ok respZeroSamples) ≠ { avgCPU := 0, replicas := 0 } := by
  decide

/-- C9 amended: a successful fetch with zero metric samples yields the
snapshot (avgCPU 0, reported replicas) — the guarded average involves no
division by zero — and feeding the zero-value snapshot (0, 0) into `decide`
with any policy where `minReplicas ≥ 1` yields no scale-down (the result is
never below the current count 0, since `0 > minReplicas` fails). -/
theorem fetch_zero_samples_amended (resp : gqlResponse) (cfg : Config)
    (hne : resp.errors = [])
    (hzero : (resp.data.instances.map instanceMetrics.metrics).flatten = [])
    (hmin : 1 ≤ cfg.min) :
    fetch (GqlOutcome.ok resp) = { avgCPU := 0, replicas := resp.data.replicas }
    ∧ 0 ≤ decide 0 0 cfg := by
  constructor
  · simp [fetch, hne, hzero]
  · unfold decide
    split
    case isTrue => omega
    case isFalse =>
      split
      case isTrue h => obtain ⟨-, h⟩ := h; omega
      case isFalse => omega

/-- Witness for C9 (amended) at the concrete zero-sample response and the
default policy. -/
theorem fetch_zero_samples_amended_witness :
    fetch (GqlOutcome.ok respZeroSamples)
      = { avgCPU := 0, replicas := respZeroSamples.data.replicas }
    ∧ 0 ≤ decide 0 0 cfg0 :=
  fetch_zero_samples_amended respZeroSamples cfg0 rfl rfl (by norm_num [cfg0])

/-- C10: `lastScale` starts at startup time minus the cooldown, and with that
initial value a genuine desired change in the first cycle passes the cooldown
gate at any instant strictly after startup (the fetch precedes the gate
check), so the mutation is invoked. -/
theorem first_cycle_eligible (cfg : Config) (tStart now nowAfter : ℤ)
    (snap : snapshot) (r : ScaleOutcome)
    (hch : decide snap.avgCPU snap.replicas cfg ≠ snap.replicas)
    (ht : tStart < now) :
    (mainStep cfg (initialLastScale cfg tStart) snap now nowAfter r).1 = true := by
  have hgate : now - initialLastScale cfg tStart > cfg.cooldown := by
    unfold initialLastScale; omega
  cases r <;> simp [mainStep, hch, hgate]

/-- Witness for C10: startup at 0, first gate check one second later, default
policy, desired change 2 → 3. -/
theorem first_cycle_eligible_witness :
    (mainStep cfg0 (initialLastScale cfg0 0) ⟨80, 2⟩ second 7
        ScaleOutcome.success).1 = true :=
  first_cycle_eligible cfg0 0 second 7 ⟨80, 2⟩ ScaleOutcome.success
    (by norm_num [decide, cfg0]) (by norm_num [second])

end Autoscaler
